import Mathlib

/-!
# SwiftPay — verification of the payout pipeline core

Shallow embedding of the SwiftPay instant-payout system
(`src/services/RedisBalanceService.js`, `src/services/DistributedLock.js`,
`src/services/PayoutService.js`, `src/services/MessageConsumer.js`,
`src/models/Transaction.js`, `src/models/User.js`, the worker service in
`src/worker`, and the Joi request validator).

Modelling conventions:
* Monetary amounts and balances are exact rationals (`ℚ`); the JS sources
  manipulate IEEE doubles, but every algebraic step in the code
  (`current - amount`, `current + amount`, `Math.round(x*100)/100`) is
  embedded with its exact mathematical meaning.
* The Redis keyspace is split by prefix: `balance:{userId}` becomes a map
  `String → Option ℚ` keyed by `userId`, and `lock:{userId}` a map
  `String → Option String` (value = fencing token).
* Lua scripts run atomically inside Redis; each script is one Lean function
  from the pre-state to (reply, post-state).
* Fallible external calls (Mongo save, Redis command) are modelled with an
  explicit fault-injection record: each flag makes the corresponding call
  throw an infrastructure error exactly when it is reached.
* MongoDB documents keep the in-memory/persisted distinction of Mongoose:
  `markAsProcessing` / `markAsCompleted` / `markAsFailed` mutate the
  in-memory document and then save the whole document.
-/

namespace SwiftPay

/-- Cached balances: Redis keys `balance:{userId}`, keyed here by `userId`. -/
abbrev Balances := String → Option ℚ

/-- Lock entries: Redis keys `lock:{userId}`, value = fencing token. -/
abbrev Locks := String → Option String

/-- Write one balance key (Redis `SET balance:{u}`). -/
def writeBal (b : Balances) (u : String) (q : ℚ) : Balances :=
  fun v => if v = u then some q else b v

/-! ## RedisBalanceService (src/services/RedisBalanceService.js)

`deductBalance` and `addBalance` each run one Lua script via `EVAL` and then
interpret the script's reply (`nil` → throw `BALANCE_NOT_FOUND`, `-1` → throw
`INSUFFICIENT_BALANCE`). The script is embedded as a function returning
(reply, post-keyspace). -/

/-- The Lua script inside `deductBalance`:
read current; absent → reply nil; `current < amount` → reply `-1`;
otherwise store `current - amount` and reply the new balance. -/
def deductScript (b : Balances) (u : String) (amount : ℚ) : Option ℚ × Balances :=
  match b u with
  | none => (none, b)
  | some current =>
    if current < amount then (some (-1), b)
    else (some (current - amount), writeBal b u (current - amount))

/-- The Lua script inside `addBalance`:
read current; absent → reply nil; otherwise store `current + amount` and
reply the new balance. -/
def addScript (b : Balances) (u : String) (amount : ℚ) : Option ℚ × Balances :=
  match b u with
  | none => (none, b)
  | some current => (some (current + amount), writeBal b u (current + amount))

/-- Result of `RedisBalanceService.deductBalance` as seen by its caller. -/
inductive DeductOutcome
  | ok (newBalance : ℚ)
  | errBalanceNotFound
  | errInsufficientBalance
deriving DecidableEq, Repr

/-- `RedisBalanceService.deductBalance`: run the script, then
`nil` → `BALANCE_NOT_FOUND`, `-1` → `INSUFFICIENT_BALANCE`, else return the
new balance. -/
def deductBalance (b : Balances) (u : String) (amount : ℚ) : DeductOutcome × Balances :=
  match deductScript b u amount with
  | (none, b1) => (.errBalanceNotFound, b1)
  | (some r, b1) => if r = -1 then (.errInsufficientBalance, b1) else (.ok r, b1)

/-- Result of `RedisBalanceService.addBalance` as seen by its caller. -/
inductive AddOutcome
  | ok (newBalance : ℚ)
  | errBalanceNotFound
deriving DecidableEq, Repr

/-- `RedisBalanceService.addBalance`: run the script, then
`nil` → `BALANCE_NOT_FOUND`, else return the new balance. -/
def addBalance (b : Balances) (u : String) (amount : ℚ) : AddOutcome × Balances :=
  match addScript b u amount with
  | (none, b1) => (.errBalanceNotFound, b1)
  | (some r, b1) => (.ok r, b1)

/-- `RedisBalanceService.getBalance`: plain `GET balance:{u}`. -/
def getBalance (b : Balances) (u : String) : Option ℚ := b u

/-- `RedisBalanceService.initializeBalance` / `syncBalance`: unconditional SET. -/
def syncBalance (b : Balances) (u : String) (q : ℚ) : Balances := writeBal b u q

namespace DistributedLock

/-- `release`: the compare-and-delete Lua script — delete `lock:{resource}`
only if its current value equals `lockValue`; reply 1 on delete, 0 otherwise. -/
def release (lk : Locks) (resource lockValue : String) : Bool × Locks :=
  match lk resource with
  | some v =>
    if v = lockValue then (true, fun w => if w = resource then none else lk w)
    else (false, lk)
  | none => (false, lk)

end DistributedLock

/-! ## Transaction model (src/models/Transaction.js)

Only the claim-relevant fields are embedded; timestamps, request metadata and
error details are omitted. -/

/-- `status` enum of the transaction schema. -/
inductive TxStatus
  | initiated
  | processing
  | completed
  | failed
  | rolled_back
deriving DecidableEq, Repr

/-- A transaction document. -/
structure Transaction where
  transactionId : String
  userId : String
  amount : ℚ
  currency : String
  status : TxStatus
  balanceBefore : ℚ
  balanceAfter : ℚ
deriving DecidableEq, Repr

/-- `transaction.markAsProcessing()`: set `status = 'processing'` on the
document (then save it). -/
def markAsProcessing (t : Transaction) : Transaction :=
  { t with status := .processing }

/-- `transaction.markAsCompleted()`: set `status = 'completed'` on the
document (then save it). -/
def markAsCompleted (t : Transaction) : Transaction :=
  { t with status := .completed }

/-- `transaction.markAsFailed(error)`: set `status = 'failed'` on the
document (then save it). No guard on the current status. -/
def markAsFailed (t : Transaction) : Transaction :=
  { t with status := .failed }

/-! ## User model (src/models/User.js) -/

/-- A user document (claim-relevant fields). -/
structure UserRec where
  balance : ℚ
  currency : String
  status : String
  totalPayouts : ℕ
  totalPayoutAmount : ℚ
deriving DecidableEq, Repr

/-! ## Request validation (src/validators/payout.validator.js +
src/middleware/validation.js)

The `amount` field of `payoutRequestSchema` is
`Joi.number().required().positive().precision(2).min(0.01).max(1000000)` and
the middleware calls `schema.validate(req.body, { abortEarly: false,
stripUnknown: true })`, i.e. with Joi's default `convert: true`. In convert
mode Joi's number base validator first rounds the value to the declared
precision (`Math.round(value * 100) / 100`) and only then applies the
`positive`/`precision`/`min`/`max` rules to the rounded value. A failed
validation is answered with HTTP 400. -/

/-- JS `Math.round(q * 100) / 100` (Math.round x = ⌊x + 1/2⌋). -/
def joiRound2 (q : ℚ) : ℚ := ((⌊q * 100 + 1/2⌋ : ℤ) : ℚ) / 100

/-- Joi's `precision(2)` rule on an already-converted value: at most two
decimal places. -/
def atMostTwoDecimals (q : ℚ) : Prop := (q * 100).den = 1

instance (q : ℚ) : Decidable (atMostTwoDecimals q) := by
  unfold atMostTwoDecimals; infer_instance

/-- Validation of the `amount` field: `some v` = request accepted with the
converted amount `v`; `none` = rejected with HTTP 400. -/
def validateAmount (q : ℚ) : Option ℚ :=
  let v := joiRound2 q
  if 0 < v then
    if atMostTwoDecimals v then
      if 1/100 ≤ v then
        if v ≤ 1000000 then some v else none
      else none
    else none
  else none

/-- The external state shared by gateway and worker. -/
structure SysState where
  balances : Balances
  locks : Locks
  txs : String → Option Transaction
  users : String → Option UserRec

/-- Persist a transaction document under its `transactionId`. -/
def SysState.saveTx (s : SysState) (t : Transaction) : SysState :=
  { s with txs := fun v => if v = t.transactionId then some t else s.txs v }

/-- Replace the whole balance keyspace (result of a Redis script). -/
def SysState.withBalances (s : SysState) (b : Balances) : SysState :=
  { s with balances := b }

/-- `User.updateOne({userId}, {$set: {balance}, $inc: {...}})`: single-document
update of the durable user record; matching no document is a no-op. -/
def SysState.updateUserAfterPayout (s : SysState) (u : String) (newBalance amount : ℚ) :
    SysState :=
  match s.users u with
  | none => s
  | some usr =>
    let usr1 : UserRec :=
      { usr with
          balance := newBalance
          totalPayouts := usr.totalPayouts + 1
          totalPayoutAmount := usr.totalPayoutAmount + amount }
    { s with users := fun v => if v = u then some usr1 else s.users v }

/-- Unconditional `DEL lock:{u}` (the worker's release path). -/
def SysState.delLock (s : SysState) (u : String) : SysState :=
  { s with locks := fun v => if v = u then none else s.locks v }

/-! ## Worker settlement (WorkerService.processPayoutMessage, src/worker)

Faults: each flag makes the corresponding fallible external call throw an
infrastructure error when it is reached. `AuditLog.logAction` and
`emitWebSocketEvent` swallow their own errors in the source and cannot fail
the flow, so they are not modelled. -/

/-- Fault-injection profile for one settlement attempt. -/
structure Faults where
  failFind : Bool
  failMarkProcessing : Bool
  failGetBalance : Bool
  failDeduct : Bool
  failMarkCompleted : Bool
  failUpdateUser : Bool
  failReleaseDel : Bool
  failAddRollback : Bool
deriving DecidableEq, Repr

/-- No injected faults. -/
def Faults.noneF : Faults :=
  ⟨false, false, false, false, false, false, false, false⟩

/-- Errors thrown inside `processPayoutMessage` (`error.message` values, plus
injected infrastructure errors tagged with the failing step). -/
inductive WErr
  | transactionNotFound
  | alreadyProcessing
  | insufficientBalance
  | balanceNotFound
  | infra (step : String)
deriving DecidableEq, Repr

/-- The catch block skips the compensating `addBalance` exactly for these
three `error.message` values. -/
def WErr.skipsRollback : WErr → Bool
  | .transactionNotFound => true
  | .alreadyProcessing => true
  | .insufficientBalance => true
  | _ => false

/-- Outcome of one `processPayoutMessage` call as seen by the consumer. -/
inductive WOutcome
  | ok
  | threw (e : WErr)
deriving DecidableEq, Repr

/-- The queue message payload `{transactionId, userId, amount, currency}`. -/
structure Payload where
  transactionId : String
  userId : String
  amount : ℚ
  currency : String
deriving DecidableEq, Repr

/-- The catch block of `processPayoutMessage`:
if the error is not `TRANSACTION_NOT_FOUND`/`ALREADY_PROCESSING`/
`INSUFFICIENT_BALANCE`, attempt the compensating `addBalance` (its own errors
are swallowed, and the injected `failAddRollback` fault suppresses the write);
if a transaction document was loaded, `markAsFailed` it and save; then
re-throw the error. `txMem` is the in-memory document at throw time. -/
def workerCatch (f : Faults) (p : Payload) (s : SysState) (txMem : Option Transaction)
    (e : WErr) : WOutcome × SysState :=
  let s1 :=
    if e.skipsRollback then s
    else if f.failAddRollback then s
    else s.withBalances (addBalance s.balances p.userId p.amount).2
  let s2 :=
    match txMem with
    | none => s1
    | some tm => s1.saveTx (markAsFailed tm)
  (.threw e, s2)

/-- `WorkerService.processPayoutMessage`: load the transaction, run the
idempotency checks, mark processing, read the cached balance, pre-check it,
atomically deduct, persist `balanceAfter` + `completed`, update the durable
user record, release the lock by unconditional `DEL`, and return; any thrown
error is handled by `workerCatch`. -/
def processPayoutMessage (f : Faults) (p : Payload) (s0 : SysState) :
    WOutcome × SysState :=
  if f.failFind then
    workerCatch f p s0 none (.infra "findByTransactionId")
  else
    match s0.txs p.transactionId with
    | none => workerCatch f p s0 none .transactionNotFound
    | some tx0 =>
      if tx0.status = .completed then
        (.ok, s0)
      else if tx0.status = .processing then
        workerCatch f p s0 (some tx0) .alreadyProcessing
      else
        let tx1 := markAsProcessing tx0
        if f.failMarkProcessing then
          workerCatch f p s0 (some tx1) (.infra "markAsProcessing")
        else
          let s1 := s0.saveTx tx1
          if f.failGetBalance then
            workerCatch f p s1 (some tx1) (.infra "getBalance")
          else
            match getBalance s1.balances p.userId with
            | none => workerCatch f p s1 (some tx1) .balanceNotFound
            | some currentBalance =>
              if currentBalance < p.amount then
                workerCatch f p s1 (some tx1) .insufficientBalance
              else if f.failDeduct then
                workerCatch f p s1 (some tx1) (.infra "deductBalance")
              else
                match deductBalance s1.balances p.userId p.amount with
                | (.errBalanceNotFound, b2) =>
                  workerCatch f p (s1.withBalances b2) (some tx1) .balanceNotFound
                | (.errInsufficientBalance, b2) =>
                  workerCatch f p (s1.withBalances b2) (some tx1) .insufficientBalance
                | (.ok newBalance, b2) =>
                  let s2 := s1.withBalances b2
                  let tx2 := markAsCompleted { tx1 with balanceAfter := newBalance }
                  if f.failMarkCompleted then
                    workerCatch f p s2 (some tx2) (.infra "markAsCompleted")
                  else
                    let s3 := s2.saveTx tx2
                    if f.failUpdateUser then
                      workerCatch f p s3 (some tx2) (.infra "userUpdateOne")
                    else
                      let s4 := s3.updateUserAfterPayout p.userId newBalance p.amount
                      let s5 := if f.failReleaseDel then s4 else s4.delLock p.userId
                      (.ok, s5)

/-! ## Consumer (src/services/MessageConsumer.js) -/

/-- What the consumer does with the delivered message. -/
inductive ConsumerAction
  | ack
  | nackRepublish (retryCount : ℕ)
  | nackDLQ
deriving DecidableEq, Repr

/-- `MessageConsumer.handleFailure`: `retryCount = header + 1`; if
`retryCount ≤ maxRetries` → nack-without-requeue and re-publish the body with
the incremented `x-retry-count` header; otherwise nack-without-requeue so the
broker dead-letters the message. -/
def handleFailure (retryHeader maxRetries : ℕ) : ConsumerAction :=
  let retryCount := retryHeader + 1
  if retryCount ≤ maxRetries then .nackRepublish retryCount else .nackDLQ

/-- `MessageConsumer.handleMessage`: invoke the handler; ack on normal
return, apply `handleFailure` when it throws. `MAX_RETRY_ATTEMPTS` defaults
to 3. -/
def handleMessage (f : Faults) (p : Payload) (retryHeader : ℕ) (s : SysState) :
    ConsumerAction × SysState :=
  match processPayoutMessage f p s with
  | (.ok, s1) => (.ack, s1)
  | (.threw _, s1) => (handleFailure retryHeader 3, s1)

/-! ## Gateway intake (PayoutService.initiatePayout) -/

/-- The JSON body of `GET /api/payout/user/:uid/balance`. -/
structure BalanceView where
  userId : String
  balance : ℚ
  currency : String
deriving DecidableEq, Repr

/-- `PayoutService.getUserBalance`: read the cached balance; on a cold miss
load the user (404 when absent), sync the cache from the durable balance; the
response's `currency` field is the literal `'USD'`. -/
def getUserBalance (s : SysState) (u : String) : Option BalanceView × SysState :=
  match getBalance s.balances u with
  | some bal => (some ⟨u, bal, "USD"⟩, s)
  | none =>
    match s.users u with
    | none => (none, s)
    | some usr =>
      (some ⟨u, usr.balance, "USD"⟩,
       { s with balances := syncBalance s.balances u usr.balance })

/-! ## Concrete fixtures (mirroring docker/mongo-init.js sample data) -/

/-- An `initiated` transaction for `user_001`, amount 100. -/
def txInit : Transaction :=
  { transactionId := "TXN1", userId := "user_001", amount := 100,
    currency := "USD", status := .initiated,
    balanceBefore := 5000, balanceAfter := 4900 }

/-- The same transaction already settled (`completed`). -/
def txDone : Transaction := { txInit with status := .completed }

/-- An active user with durable balance 5000. -/
def usrAlice : UserRec :=
  { balance := 5000, currency := "USD", status := "active",
    totalPayouts := 0, totalPayoutAmount := 0 }

/-- Cached balances: only `user_001` present, at 5000. -/
def balFix : Balances := fun v => if v = "user_001" then some 5000 else none

/-- Base system state: warm cache for `user_001`, a lock entry held under
token `"tok_b"`, the transaction `TXN1` in `initiated` state. -/
def stBase : SysState :=
  { balances := balFix
    locks := fun v => if v = "user_001" then some "tok_b" else none
    txs := fun v => if v = "TXN1" then some txInit else none
    users := fun v => if v = "user_001" then some usrAlice else none }

/-- The queue message for `TXN1`. -/
def payTXN1 : Payload :=
  { transactionId := "TXN1", userId := "user_001", amount := 100, currency := "USD" }

end SwiftPay

namespace SwiftPay

/-! # Claims -/

/-- Helper: the successful branch of `deductBalance` — key present and
sufficient funds — returns and writes `current - amount`. -/
theorem deduct_ok_eq (b : Balances) (u : String) (a current : ℚ)
    (hb : b u = some current) (hle : a ≤ current) :
    deductBalance b u a = (.ok (current - a), writeBal b u (current - a)) := by
  have hnn : (0:ℚ) ≤ current - a := sub_nonneg.mpr hle
  have hne : current - a ≠ -1 := by
    intro h
    rw [h] at hnn
    norm_num at hnn
  unfold deductBalance deductScript
  rw [hb]
  dsimp only
  rw [if_neg (not_lt.mpr hle)]
  dsimp only
  rw [if_neg hne]

/-- **C9.** Immediately applying `addBalance u a` after a successful
`deductBalance u a` restores every cached balance key to its pre-deduction
value. -/
theorem addBalance_inverts_deductBalance (b : Balances) (u : String) (a current : ℚ)
    (hb : b u = some current) (ha : a ≤ current) :
    ∀ v, (addBalance (deductBalance b u a).2 u a).2 v = b v := by
  intro v
  have hnn : (0:ℚ) ≤ current - a := sub_nonneg.mpr ha
  have hne : current - a ≠ -1 := by
    intro h
    rw [h] at hnn
    norm_num at hnn
  have hded : deductBalance b u a = (.ok (current - a), writeBal b u (current - a)) :=
    deduct_ok_eq b u a current hb ha
  rw [hded]
  have h1 : writeBal b u (current - a) u = some (current - a) := by
    unfold writeBal
    rw [if_pos rfl]
  unfold addBalance addScript
  dsimp only
  rw [h1]
  dsimp only
  unfold writeBal
  by_cases hv : v = u
  · subst hv
    rw [if_pos rfl, sub_add_cancel]
    exact hb.symm
  · rw [if_neg hv, if_neg hv]

/-- Witness for C9: deducting then adding 100 for `user_001` restores the
fixture balances at both a hit and a miss key. -/
theorem addBalance_inverts_deductBalance_witness :
    (addBalance (deductBalance balFix "user_001" 100).2 "user_001" 100).2 "user_001"
      = balFix "user_001" ∧
    (addBalance (deductBalance balFix "user_001" 100).2 "user_001" 100).2 "user_404"
      = balFix "user_404" :=
  ⟨addBalance_inverts_deductBalance balFix "user_001" 100 5000 rfl (by norm_num) "user_001",
   addBalance_inverts_deductBalance balFix "user_001" 100 5000 rfl (by norm_num) "user_404"⟩

/-- **C10.** Whatever the user's stored currency, every successful
`getUserBalance` reply carries the constant currency `'USD'`. -/
theorem getUserBalance_currency_constant (s : SysState) (u : String) (r : BalanceView)
    (h : (getUserBalance s u).1 = some r) : r.currency = "USD" := by
  unfold getUserBalance at h
  cases hb : getBalance s.balances u with
  | some bal =>
    rw [hb] at h
    dsimp only at h
    cases h
    rfl
  | none =>
    rw [hb] at h
    cases hu : s.users u with
    | none =>
      rw [hu] at h
      exact absurd h (by simp)
    | some usr =>
      rw [hu] at h
      dsimp only at h
      cases h
      rfl

/-- State with a cold cache and a user whose account currency is EUR. -/
def stEur : SysState :=
  { balances := fun _ => none
    locks := fun _ => none
    txs := fun _ => none
    users := fun v => if v = "user_eu" then
        some { balance := 777, currency := "EUR", status := "active",
               totalPayouts := 0, totalPayoutAmount := 0 }
      else none }

/-- Witness for C10: a user whose stored currency is EUR is still reported
with currency `'USD'`. -/
theorem getUserBalance_currency_constant_witness :
    (BalanceView.mk "user_eu" 777 "USD").currency = "USD" :=
  getUserBalance_currency_constant stEur "user_eu" ⟨"user_eu", 777, "USD"⟩ (by decide)

/-- A rounded amount times 100 is an integer, so Joi's `precision(2)` rule
always passes on the converted value. -/
theorem joiRound2_mul_den (q : ℚ) : atMostTwoDecimals (joiRound2 q) := by
  unfold atMostTwoDecimals joiRound2
  rw [div_mul_cancel₀ _ (by norm_num : (100:ℚ) ≠ 0)]
  exact Rat.den_intCast _

/-- **C8 (counterexample).** The amount `1000000.001` has three fractional
digits and exceeds the schema maximum `1000000`, yet validation accepts it:
Joi's convert-mode `precision(2)` rounds it to `1000000` before the rules
run, so it is neither rejected for precision nor for the bound. -/
theorem validateAmount_counterexample :
    validateAmount (1000000001 / 1000) = some 1000000 ∧
    ¬ atMostTwoDecimals (1000000001 / 1000) ∧
    (1000000 : ℚ) < 1000000001 / 1000 := by
  refine ⟨?_, ?_, by norm_num⟩
  · have h : joiRound2 (1000000001 / 1000) = 1000000 := by
      unfold joiRound2
      norm_num
    unfold validateAmount
    rw [h, if_pos (by norm_num), if_pos (h ▸ joiRound2_mul_den (1000000001 / 1000)),
        if_pos (by norm_num), if_pos (by norm_num)]
  · unfold atMostTwoDecimals
    rw [show (1000000001 / 1000 * 100 : ℚ) = ((1000000001 : ℤ) : ℚ) / ((10 : ℤ) : ℚ) by
          push_cast; norm_num]
    rw [Rat.den_div_intCast_eq_one_iff _ _ (by norm_num)]
    norm_num

/-- **C8 (amended).** Amount validation accepts `0.01` and the schema
maximum `1000000`, and rejects `0` and every negative amount; but an amount
with more than two fractional digits is not rejected as such: the value is
first rounded to two decimals (Joi convert mode) and the
positivity/`min`/`max` rules are applied to the rounded value, so validation
rejects exactly when the rounded value is non-positive, below `0.01`, or
above `1000000`, and otherwise accepts the rounded value. -/
theorem validateAmount_amended :
    validateAmount (1/100) = some (1/100) ∧
    validateAmount 1000000 = some 1000000 ∧
    validateAmount 0 = none ∧
    (∀ q : ℚ, q < 0 → validateAmount q = none) ∧
    (∀ q : ℚ, 1000000 < joiRound2 q → validateAmount q = none) ∧
    (∀ q : ℚ, joiRound2 q < 1/100 → validateAmount q = none) ∧
    (∀ q : ℚ, validateAmount q = none ∨ validateAmount q = some (joiRound2 q)) := by
  refine ⟨?_, ?_, ?_, ?_, ?_, ?_, ?_⟩
  · have h : joiRound2 (1/100) = 1/100 := by
      unfold joiRound2
      norm_num
    unfold validateAmount
    rw [h, if_pos (by norm_num), if_pos (h ▸ joiRound2_mul_den (1/100)),
        if_pos le_rfl, if_pos (by norm_num)]
  · have h : joiRound2 1000000 = 1000000 := by
      unfold joiRound2
      norm_num
    unfold validateAmount
    rw [h, if_pos (by norm_num), if_pos (h ▸ joiRound2_mul_den 1000000),
        if_pos (by norm_num), if_pos (by norm_num)]
  · have h : joiRound2 0 = 0 := by
      unfold joiRound2
      norm_num
    unfold validateAmount
    rw [h, if_neg (by norm_num)]
  · intro q hq
    have hle : joiRound2 q ≤ 0 := by
      unfold joiRound2
      apply div_nonpos_of_nonpos_of_nonneg _ (by norm_num)
      have hf : ⌊q * 100 + 1/2⌋ ≤ 0 := by
        have : q * 100 + 1/2 < 1 := by nlinarith
        have h1 : ⌊q * 100 + 1/2⌋ < 1 := Int.floor_lt.mpr (by exact_mod_cast this)
        omega
      exact_mod_cast hf
    unfold validateAmount
    rw [if_neg (not_lt.mpr hle)]
  · intro q hq
    unfold validateAmount
    rw [if_pos (lt_trans (by norm_num) hq), if_pos (joiRound2_mul_den q),
        if_pos (le_trans (by norm_num) (le_of_lt hq)), if_neg (not_le.mpr hq)]
  · intro q hq
    unfold validateAmount
    by_cases h0 : 0 < joiRound2 q
    · rw [if_pos h0, if_pos (joiRound2_mul_den q), if_neg (not_le.mpr hq)]
    · rw [if_neg h0]
  · intro q
    unfold validateAmount
    by_cases h0 : 0 < joiRound2 q
    · rw [if_pos h0, if_pos (joiRound2_mul_den q)]
      by_cases h1 : 1/100 ≤ joiRound2 q
      · rw [if_pos h1]
        by_cases h2 : joiRound2 q ≤ 1000000
        · rw [if_pos h2]
          exact Or.inr rfl
        · rw [if_neg h2]
          exact Or.inl rfl
      · rw [if_neg h1]
        exact Or.inl rfl
    · rw [if_neg h0]
      exact Or.inl rfl

/-- Witness for C8 (amended): concrete rejections through the universally
quantified clauses. -/
theorem validateAmount_amended_witness :
    validateAmount (-5) = none ∧ validateAmount (1/100) = some (1/100) :=
  ⟨validateAmount_amended.2.2.2.1 (-5) (by norm_num), validateAmount_amended.1⟩

/-! ## Further fixtures for the worker-path claims -/

/-- `stBase` with `TXN1` already `completed`. -/
def stDone : SysState :=
  { stBase with txs := fun v => if v = "TXN1" then some txDone else none }

/-- `stBase` with a cold balance cache. -/
def stCold : SysState := { stBase with balances := fun _ => none }

/-- A state without any stored transaction. -/
def stNoTx : SysState := { stBase with txs := fun _ => none }

/-- A payout message whose amount exceeds the cached balance. -/
def pay6000 : Payload := { payTXN1 with amount := 6000 }

/-- Fault profile: the Mongo save inside `markAsProcessing` fails. -/
def faultsMP : Faults := { Faults.noneF with failMarkProcessing := true }

/-- **C1.** `DistributedLock.release` itself is the compare-and-delete
script and refuses to delete a lock holding a different acquirer's token,
but the worker settlement path releases by unconditional `DEL`: starting
from a state whose `lock:user_001` entry holds token `"tok_b"` written by a
different acquirer, the token-scoped release with `"tok_a"` leaves the lock,
while a completed worker settlement (which holds no token at all) deletes
it. -/
theorem worker_release_not_token_scoped :
    (DistributedLock.release stBase.locks "user_001" "tok_a").1 = false ∧
    (DistributedLock.release stBase.locks "user_001" "tok_a").2 "user_001" = some "tok_b" ∧
    stBase.locks "user_001" = some "tok_b" ∧
    (processPayoutMessage Faults.noneF payTXN1 stBase).1 = .ok ∧
    (processPayoutMessage Faults.noneF payTXN1 stBase).2.locks "user_001" = none := by
  refine ⟨by simp [DistributedLock.release, stBase], by simp [DistributedLock.release, stBase],
          rfl, ?_, ?_⟩ <;>
  · simp [processPayoutMessage, workerCatch, markAsProcessing, markAsCompleted, markAsFailed,
      getBalance, deductBalance, deductScript, addBalance, addScript, writeBal, stBase, balFix,
      txInit, payTXN1, usrAlice, Faults.noneF, WErr.skipsRollback, SysState.saveTx,
      SysState.withBalances, SysState.updateUserAfterPayout, SysState.delLock]
    try norm_num [writeBal]

/-- Helper: when no transaction document was loaded, the catch block never
touches the transaction store. -/
theorem workerCatch_txs_of_none (f : Faults) (p : Payload) (s : SysState) (e : WErr) :
    (workerCatch f p s none e).2.txs = s.txs := by
  unfold workerCatch
  dsimp only
  by_cases h1 : e.skipsRollback = true
  · rw [if_pos h1]
  · rw [if_neg h1]
    by_cases h2 : f.failAddRollback = true
    · rw [if_pos h2]
    · rw [if_neg h2]
      rfl

/-- **C2 (counterexample).** The state-transition helpers are unguarded:
`markAsFailed` applied to a transaction whose status is `completed` moves it
to `failed` — exactly the transition the claim rules out. -/
theorem completed_status_mutable_counterexample :
    txDone.status = .completed ∧
    (markAsFailed txDone).status = .failed ∧
    TxStatus.failed ≠ TxStatus.completed :=
  ⟨rfl, rfl, by decide⟩

/-- **C2 (amended).** The helpers set their target status unconditionally
(`markAsFailed` moves even a `completed` transaction to `failed`, which the
worker's catch block performs when an error strikes after completion, and a
`failed` transaction is re-entered via `markAsProcessing` on redelivery);
the guard that does hold is the worker's early idempotency return: a
transaction stored as `completed` when a settlement attempt begins keeps its
stored record unchanged through that attempt, under every fault profile. -/
theorem settlement_preserves_stored_completed (f : Faults) (p : Payload) (s : SysState)
    (tx : Transaction) (hb : s.txs p.transactionId = some tx)
    (hc : tx.status = .completed) :
    (processPayoutMessage f p s).2.txs p.transactionId = some tx := by
  unfold processPayoutMessage
  by_cases hf : f.failFind = true
  · rw [if_pos hf, workerCatch_txs_of_none]
    exact hb
  · rw [if_neg hf, hb]
    dsimp only
    rw [hc]
    rw [if_pos rfl]
    exact hb

/-- Witness for C2 (amended): the stored completed `TXN1` survives a
settlement attempt in which every fallible call fails. -/
theorem settlement_preserves_stored_completed_witness :
    (processPayoutMessage ⟨true, true, true, true, true, true, true, true⟩ payTXN1 stDone).2.txs
      "TXN1" = some txDone :=
  settlement_preserves_stored_completed ⟨true, true, true, true, true, true, true, true⟩
    payTXN1 stDone txDone rfl rfl

/-- **C4.** Redelivering a message for an already-`completed` transaction is
a complete no-op: the worker returns at the idempotency check, the state
(balances, users, transactions, locks) is untouched, and the consumer acks
the duplicate. -/
theorem replay_completed_noop (p : Payload) (h : ℕ) (s : SysState) (tx : Transaction)
    (hb : s.txs p.transactionId = some tx) (hc : tx.status = .completed) :
    handleMessage Faults.noneF p h s = (.ack, s) := by
  unfold handleMessage processPayoutMessage
  rw [show Faults.noneF.failFind = false from rfl]
  rw [if_neg (by simp), hb]
  dsimp only
  rw [hc, if_pos rfl]

/-- Witness for C4: concrete redelivery of completed `TXN1` acks and leaves
the state identical. -/
theorem replay_completed_noop_witness :
    handleMessage Faults.noneF payTXN1 0 stDone = (.ack, stDone) :=
  replay_completed_noop payTXN1 0 stDone txDone rfl rfl

/-- **C7 (counterexample).** A message whose `transaction_id` matches no
stored transaction is not acked-and-dropped: the consumer nacks it and
re-publishes it with retry count 1. -/
theorem missing_transaction_not_acked :
    handleMessage Faults.noneF payTXN1 0 stNoTx = (.nackRepublish 1, stNoTx) ∧
    ConsumerAction.nackRepublish 1 ≠ ConsumerAction.ack := by
  constructor
  · simp [handleMessage, processPayoutMessage, workerCatch, handleFailure,
      WErr.skipsRollback, Faults.noneF, stNoTx, payTXN1]
  · decide

/-- **C7 (amended).** On a message whose transaction id matches no stored
record the worker throws `TRANSACTION_NOT_FOUND`; no state (in particular no
cached balance) is mutated, and the consumer applies the generic retry
policy: nack-without-requeue plus re-publish with incremented retry count
while `retryCount ≤ MAX_RETRY_ATTEMPTS` (3), then nack to the dead-letter
queue. -/
theorem missing_transaction_requeue (p : Payload) (h : ℕ) (s : SysState)
    (hb : s.txs p.transactionId = none) :
    handleMessage Faults.noneF p h s =
      ((if h + 1 ≤ 3 then ConsumerAction.nackRepublish (h + 1) else ConsumerAction.nackDLQ),
       s) := by
  unfold handleMessage processPayoutMessage workerCatch handleFailure
  rw [show Faults.noneF.failFind = false from rfl]
  rw [if_neg (by simp), hb]
  simp [WErr.skipsRollback]

/-- Witness for C7 (amended): at retry headers 0 and 3 the consumer
re-publishes and dead-letters respectively. -/
theorem missing_transaction_requeue_witness :
    handleMessage Faults.noneF payTXN1 0 stNoTx =
      ((if 0 + 1 ≤ 3 then ConsumerAction.nackRepublish (0 + 1) else ConsumerAction.nackDLQ),
       stNoTx) ∧
    handleMessage Faults.noneF payTXN1 3 stNoTx =
      ((if 3 + 1 ≤ 3 then ConsumerAction.nackRepublish (3 + 1) else ConsumerAction.nackDLQ),
       stNoTx) :=
  ⟨missing_transaction_requeue payTXN1 0 stNoTx rfl,
   missing_transaction_requeue payTXN1 3 stNoTx rfl⟩

/-- **C5 (counterexample).** An infrastructure error raised before the
deduct step (here: the Mongo save inside `markAsProcessing` fails) does not
leave the cached balance unchanged: the catch block's compensating
`addBalance` credits the amount although nothing was deducted, moving
`user_001` from 5000 to 5100. -/
theorem rollback_credit_without_deduction_counterexample :
    stBase.balances "user_001" = some 5000 ∧
    (processPayoutMessage faultsMP payTXN1 stBase).1 = .threw (.infra "markAsProcessing") ∧
    (processPayoutMessage faultsMP payTXN1 stBase).2.balances "user_001" = some 5100 := by
  refine ⟨rfl, ?_, ?_⟩ <;>
  · simp [processPayoutMessage, workerCatch, markAsProcessing, markAsCompleted, markAsFailed,
      getBalance, deductBalance, deductScript, addBalance, addScript, writeBal, stBase, balFix,
      txInit, payTXN1, usrAlice, Faults.noneF, faultsMP, WErr.skipsRollback, SysState.saveTx,
      SysState.withBalances, SysState.updateUserAfterPayout, SysState.delLock]
    try norm_num [writeBal]

/-- **C5 (amended).** For a settlement attempt on an `initiated`
transaction: a pre-deduct failure that is `INSUFFICIENT_BALANCE` leaves the
cached balances untouched, as does an absent balance key
(`BALANCE_NOT_FOUND`, whose compensating `addBalance` is a no-op on a
missing key); but any other pre-deduct error (here an infrastructure failure
persisting the `processing` transition) triggers the compensating credit,
increasing the cached balance by the amount although nothing was deducted. -/
theorem prededuct_error_balance_rules (p : Payload) (s : SysState) (tx : Transaction)
    (hb : s.txs p.transactionId = some tx) (hi : tx.status = .initiated) :
    (∀ current, s.balances p.userId = some current → current < p.amount →
      (processPayoutMessage Faults.noneF p s).1 = .threw .insufficientBalance ∧
      (processPayoutMessage Faults.noneF p s).2.balances = s.balances) ∧
    (s.balances p.userId = none →
      (processPayoutMessage Faults.noneF p s).1 = .threw .balanceNotFound ∧
      (processPayoutMessage Faults.noneF p s).2.balances = s.balances) ∧
    (∀ current, s.balances p.userId = some current →
      (processPayoutMessage { Faults.noneF with failMarkProcessing := true } p s).1
        = .threw (.infra "markAsProcessing") ∧
      (processPayoutMessage { Faults.noneF with failMarkProcessing := true } p s).2.balances
          p.userId
        = some (current + p.amount)) := by
  refine ⟨?_, ?_, ?_⟩
  · intro current hcur hlt
    unfold processPayoutMessage workerCatch
    rw [show Faults.noneF.failFind = false from rfl]
    rw [if_neg (by simp), hb]
    dsimp only
    rw [hi]
    rw [if_neg (by decide), if_neg (by decide)]
    rw [show Faults.noneF.failMarkProcessing = false from rfl]
    rw [if_neg (by simp)]
    rw [show Faults.noneF.failGetBalance = false from rfl]
    rw [if_neg (by simp)]
    dsimp only [SysState.saveTx, getBalance]
    rw [hcur]
    dsimp only
    rw [if_pos hlt]
    dsimp only [WErr.skipsRollback]
    rw [if_pos rfl]
    exact ⟨rfl, rfl⟩
  · intro hnone
    unfold processPayoutMessage workerCatch
    rw [show Faults.noneF.failFind = false from rfl]
    rw [if_neg (by simp), hb]
    dsimp only
    rw [hi]
    rw [if_neg (by decide), if_neg (by decide)]
    rw [show Faults.noneF.failMarkProcessing = false from rfl]
    rw [if_neg (by simp)]
    rw [show Faults.noneF.failGetBalance = false from rfl]
    rw [if_neg (by simp)]
    dsimp only [SysState.saveTx, getBalance]
    rw [hnone]
    dsimp only [WErr.skipsRollback]
    rw [if_neg (by decide)]
    rw [show Faults.noneF.failAddRollback = false from rfl]
    rw [if_neg (by simp)]
    dsimp only [addBalance, addScript]
    rw [hnone]
    exact ⟨rfl, rfl⟩
  · intro current hcur
    unfold processPayoutMessage workerCatch
    rw [if_neg (by decide), hb]
    dsimp only
    rw [hi]
    rw [if_neg (by decide), if_neg (by decide)]
    rw [if_pos rfl]
    dsimp only [WErr.skipsRollback]
    rw [if_neg (by decide)]
    rw [if_neg (by decide)]
    dsimp only [addBalance, addScript]
    rw [hcur]
    dsimp only [SysState.withBalances, writeBal]
    refine ⟨rfl, ?_⟩
    dsimp only [SysState.saveTx, writeBal]
    rw [if_pos rfl]

/-- Witness for C5 (amended): the three clauses evaluated on the fixture
state — an over-large amount, a cold cache, and the failing
`markAsProcessing` save. -/
theorem prededuct_error_balance_rules_witness :
    ((processPayoutMessage Faults.noneF pay6000 stBase).1 = .threw .insufficientBalance ∧
      (processPayoutMessage Faults.noneF pay6000 stBase).2.balances = stBase.balances) ∧
    ((processPayoutMessage Faults.noneF payTXN1 stCold).1 = .threw .balanceNotFound ∧
      (processPayoutMessage Faults.noneF payTXN1 stCold).2.balances = stCold.balances) ∧
    ((processPayoutMessage { Faults.noneF with failMarkProcessing := true } payTXN1 stBase).1
        = .threw (.infra "markAsProcessing") ∧
      (processPayoutMessage { Faults.noneF with failMarkProcessing := true } payTXN1
          stBase).2.balances "user_001"
        = some (5000 + 100)) :=
  ⟨(prededuct_error_balance_rules pay6000 stBase txInit rfl rfl).1 5000 rfl
      (by norm_num [pay6000, payTXN1]),
   (prededuct_error_balance_rules payTXN1 stCold txInit rfl rfl).2.1 rfl,
   (prededuct_error_balance_rules payTXN1 stBase txInit rfl rfl).2.2 5000 rfl⟩

end SwiftPay
